import Mathlib

/-!
Verification development for the mflinger capture client (`src/mclient/mclient.c`).

The C code is shallowly embedded: byte-addressed memory is `Nat → Nat`,
`memcpy` is pointwise update of a region, the X/mlib calls that the client
makes are modelled by injecting their observable outcomes (success/failure
flags, the stream of delivered events) as explicit parameters, and every
function of the client that the claims mention is translated into a Lean
function of the same name over those inputs.  Stateful executions return,
besides the C return value, the list of protocol actions performed (used to
reason about grab/ungrab ordering) and the resulting screen geometry.
-/

set_option genInjectivity false
set_option genSizeOfSpec false

namespace Mflinger

/-- Byte-addressed memory: address to byte value. -/
def Mem : Type := Nat → Nat

/-- C `memcpy(dst + dOff, src + sOff, n)` over byte-addressed memory:
the destination region `[dOff, dOff + n)` takes the bytes of the source
region `[sOff, sOff + n)`; all other destination bytes are unchanged. -/
def memcpy (dst src : Mem) (dOff sOff n : Nat) : Mem :=
  fun a => if dOff ≤ a ∧ a < dOff + n then src (sOff + (a - dOff)) else dst a

/-- The destination buffer of the mlib display subsystem (C `MBuffer`):
`stride` is in pixels (4 bytes each, as in `buf->stride * 4` in the C code),
`bits` is its byte storage. -/
structure MBuffer where
  width : Nat
  height : Nat
  stride : Nat
  bits : Mem

/-- The shared-memory X image (C `XImage`): `bytes_per_line` is the per-row
stride of the source surface, `data` its byte storage. -/
structure XImage where
  width : Nat
  height : Nat
  bits_per_pixel : Nat
  bytes_per_line : Nat
  data : Mem

/-- The row loop of `copy_ximg_rows_to_buffer_mlocked`: starting at row `y`,
perform `k` row copies, each moving `n` bytes from source offset
`y * ximgBPL` to destination offset `y * bufBPL`. -/
def copyRowsAux (data : Mem) (bufBPL ximgBPL n : Nat) : Nat → Nat → Mem → Mem
  | _, 0, bits => bits
  | y, Nat.succ k, bits =>
      copyRowsAux data bufBPL ximgBPL n (y + 1) k
        (memcpy bits data (y * bufBPL) (y * ximgBPL) n)

/-- C `copy_ximg_rows_to_buffer_mlocked(buf, ximg, row_start, row_end)`:
for each `y` in `[row_start, row_end)` copies
`ximg->width * (ximg->bits_per_pixel / 8)` bytes from source offset
`y * ximg->bytes_per_line` to destination offset `y * (buf->stride * 4)`.
Returns the resulting destination byte storage. -/
def copy_ximg_rows_to_buffer_mlocked (buf : MBuffer) (ximg : XImage)
    (row_start row_end : Nat) : Mem :=
  copyRowsAux ximg.data (buf.stride * 4) ximg.bytes_per_line
    (ximg.width * (ximg.bits_per_pixel / 8)) row_start (row_end - row_start) buf.bits

/-- C `copy_ximg_to_buffer_mlocked(buf, ximg)`: full-frame copy, rows
`0` to `ximg->height`. -/
def copy_ximg_to_buffer_mlocked (buf : MBuffer) (ximg : XImage) : Mem :=
  copy_ximg_rows_to_buffer_mlocked buf ximg 0 ximg.height

/-- Concrete destination buffer used to exercise the row copy. -/
def mbW : MBuffer := ⟨1, 3, 2, fun _ => 7⟩

/-- Concrete source image used to exercise the row copy (1 pixel of 32 bits
per row, 6 bytes per line, so 2 bytes of trailing row padding). -/
def mxW : XImage := ⟨1, 3, 32, 6, fun a => a + 100⟩

/-- Destination buffer whose per-row capacity (stride 1, hence 4 bytes) is
smaller than the source row payload of 8 bytes. -/
def mbC : MBuffer := ⟨8, 2, 1, fun _ => 99⟩

/-- Source image with 8 pixels of 8 bits each per row (8-byte payload). -/
def mxC : XImage := ⟨8, 2, 8, 8, fun a => a⟩

/-- A RandR mode advertised in the server's screen resources
(C `XRRModeInfo`, only the fields the client reads). -/
structure XRRModeInfo where
  width : Nat
  height : Nat

/-- A `RRScreenChangeNotify` event as the client observes it: the reported
size, together with the outcome of the `XRRUpdateConfiguration` call the
client would make on it. -/
structure SCEvent where
  width : Nat
  height : Nat
  updateOk : Bool

/-- Outcome of the bounded confirmation wait `x_sync_mode`: `synced` (C
returns 0), `failed` (C returns -1), or `blocked` — the C code is stuck in a
blocking `XIfEvent` because the server delivers no further
`RRScreenChangeNotify` event, and never returns. -/
inductive SyncModeResult
  | synced
  | failed
  | blocked

/-- The retry loop of `x_sync_mode` with `fuel` iterations left, consuming
the stream of incoming `RRScreenChangeNotify` events.  Each iteration blocks
in `XIfEvent` until the next such event; a matching (width, height) leads to
`XRRUpdateConfiguration` and return.  Also returns the number of
notifications examined. -/
def x_sync_mode_aux (mode : XRRModeInfo) : Nat → List SCEvent → SyncModeResult × Nat
  | 0, _ => (SyncModeResult.failed, 0)
  | _ + 1, [] => (SyncModeResult.blocked, 0)
  | fuel + 1, e :: rest =>
      if e.width = mode.width ∧ e.height = mode.height then
        (if e.updateOk then (SyncModeResult.synced, 1) else (SyncModeResult.failed, 1))
      else
        let r := x_sync_mode_aux mode fuel rest
        (r.1, r.2 + 1)

/-- C `x_sync_mode(dpy, screenr, mode, xrandr_event_base)`: poll for up to 3
`RRScreenChangeNotify` events, returning at the first one whose size matches
the applied mode. -/
def x_sync_mode (mode : XRRModeInfo) (events : List SCEvent) : SyncModeResult × Nat :=
  x_sync_mode_aux mode 3 events

/-- C `x_find_matching_mode(dpy, screenr, width, height)`: first advertised
mode with exactly the requested (width, height), if any. -/
def x_find_matching_mode (modes : List XRRModeInfo) (width height : Nat) :
    Option XRRModeInfo :=
  modes.find? (fun m => m.width = width && m.height = height)

/-- The destination subsystem's reported display size (C `MDisplayInfo`). -/
structure MDisplayInfo where
  width : Nat
  height : Nat

/-- Protocol actions `sync_displays` performs against the X server, in
order: the pre-grab pending-event check, local configuration refresh, the
exclusive server grab/ungrab, geometry reads, screen-resource
acquisition/release, the mode apply (`XRRSetCrtcConfig`), the screen size
update (`XRRSetScreenSize`), and each blocking confirmation poll inside
`x_sync_mode`. -/
inductive XAction
  | checkPendingEvent
  | updateConfiguration
  | grabServer
  | readGeometry
  | getScreenResources
  | setCrtcConfig
  | setScreenSize
  | confirmPoll
  | freeScreenResources
  | ungrabServer
deriving DecidableEq

/-- Actions of the pre-grab opportunistic drain: `XCheckIfEvent` for a
pending `RRScreenChangeNotify`, and `XRRUpdateConfiguration` when one is
found. -/
def drainTrace (pendingChange : Bool) : List XAction :=
  if pendingChange then [XAction.checkPendingEvent, XAction.updateConfiguration]
  else [XAction.checkPendingEvent]

/-- Number of occurrences of an action in a trace. -/
def countA (x : XAction) : List XAction → Nat
  | [] => 0
  | a :: r => (if a = x then 1 else 0) + countA x r

/-- Actions that inspect or mutate the screen geometry (the reads of display
width/height, the screen-resource enumeration, the mode apply, and the
screen-size update). -/
def isGeomAction : XAction → Bool
  | XAction.readGeometry => true
  | XAction.getScreenResources => true
  | XAction.setCrtcConfig => true
  | XAction.setScreenSize => true
  | _ => false

/-- Environment of one `sync_displays` negotiation attempt: the result of
`MGetDisplayInfo` (`none` = failure), whether a `RRScreenChangeNotify` is
already pending at the `XCheckIfEvent` drain, the X display size read under
the grab, the advertised mode list, the outcome of `XRRSetCrtcConfig`, and
the stream of `RRScreenChangeNotify` events delivered during the
confirmation wait. -/
structure SyncEnv where
  dinfo : Option MDisplayInfo
  pendingChange : Bool
  xwidth : Nat
  xheight : Nat
  modes : List XRRModeInfo
  setCrtcOk : Bool
  confirmEvents : List SCEvent

/-- The grabbed section of `sync_displays` (everything between the
`XDisplayWidth/Height` read under the grab and the return): the
already-synced comparison, the mode lookup, `x_set_mode`, and the
confirmation wait.  Takes the display-info target `d`, the X geometry
`xw, xh` read under the grab, the advertised modes, the `XRRSetCrtcConfig`
outcome and the confirmation event stream; returns the C return value
(`none` when the confirmation wait blocks and the call never returns),
the protocol actions of this section, and the final X geometry. -/
def sync_inner (d : MDisplayInfo) (xw xh : Nat) (modes : List XRRModeInfo)
    (setOk : Bool) (evs : List SCEvent) : Option Int × List XAction × (Nat × Nat) :=
  if xw = d.width ∧ xh = d.height then
    (some 0, [XAction.ungrabServer], (xw, xh))
  else
    match x_find_matching_mode modes d.width d.height with
    | none =>
        (some (-1),
         [XAction.getScreenResources, XAction.freeScreenResources,
          XAction.ungrabServer],
         (xw, xh))
    | some m =>
        if setOk then
          match (x_sync_mode m evs).1 with
          | SyncModeResult.blocked =>
              (none,
               XAction.getScreenResources :: XAction.readGeometry ::
                 XAction.setCrtcConfig :: XAction.setScreenSize ::
                 List.replicate (x_sync_mode m evs).2 XAction.confirmPoll,
               (m.width, m.height))
          | SyncModeResult.synced =>
              (some 0,
               XAction.getScreenResources :: XAction.readGeometry ::
                 XAction.setCrtcConfig :: XAction.setScreenSize ::
                 (List.replicate (x_sync_mode m evs).2 XAction.confirmPoll
                   ++ [XAction.freeScreenResources, XAction.ungrabServer]),
               (m.width, m.height))
          | SyncModeResult.failed =>
              (some (-1),
               XAction.getScreenResources :: XAction.readGeometry ::
                 XAction.setCrtcConfig :: XAction.setScreenSize ::
                 (List.replicate (x_sync_mode m evs).2 XAction.confirmPoll
                   ++ [XAction.freeScreenResources, XAction.ungrabServer]),
               (m.width, m.height))
        else
          (some (-1),
           [XAction.getScreenResources, XAction.readGeometry,
            XAction.setCrtcConfig, XAction.freeScreenResources,
            XAction.ungrabServer],
           (xw, xh))

/-- C `sync_displays(dpy, mdpy, xrandr_event_base)`.  Returns the C return
value (`none` when the call never returns because the confirmation wait
blocks), the list of protocol actions performed, and the final X screen
geometry.  The actions are: the pre-grab drain, the grab, the geometry read,
then the grabbed section `sync_inner`. -/
def sync_displays (env : SyncEnv) : Option Int × List XAction × (Nat × Nat) :=
  match env.dinfo with
  | none => (some (-1), [], (env.xwidth, env.xheight))
  | some d =>
    if 0 < d.width ∧ 0 < d.height then
      ((sync_inner d env.xwidth env.xheight env.modes env.setCrtcOk env.confirmEvents).1,
       drainTrace env.pendingChange ++ XAction.grabServer :: XAction.readGeometry ::
         (sync_inner d env.xwidth env.xheight env.modes env.setCrtcOk env.confirmEvents).2.1,
       (sync_inner d env.xwidth env.xheight env.modes env.setCrtcOk env.confirmEvents).2.2)
    else (some (-1), [], (env.xwidth, env.xheight))

/-- Attempt on the already-synced path: the destination reports 800x600 and
the X display is already 800x600. -/
def envSynced : SyncEnv :=
  ⟨some ⟨800, 600⟩, false, 800, 600, [⟨800, 600⟩], true, []⟩

/-- Attempt that applies a mode: destination reports 1280x720, X display is
1920x1080, the 1280x720 mode is advertised, the mode set succeeds, and the
matching notification arrives at the first confirmation poll. -/
def envApplied : SyncEnv :=
  ⟨some ⟨1280, 720⟩, false, 1920, 1080, [⟨1920, 1080⟩, ⟨1280, 720⟩], true,
   [⟨1280, 720, true⟩]⟩

/-- Attempt on the no-matching-mode path: destination reports 1234x567,
which is not in the advertised mode list. -/
def envNoMatch : SyncEnv :=
  ⟨some ⟨1234, 567⟩, false, 1920, 1080, [⟨1920, 1080⟩, ⟨1280, 720⟩], true, []⟩

/-- Attempt on the mode-set-failure path: a matching mode exists but
`XRRSetCrtcConfig` fails. -/
def envSetFail : SyncEnv :=
  ⟨some ⟨1280, 720⟩, false, 1920, 1080, [⟨1280, 720⟩], false, []⟩

/-- Calls `render_root` makes against the mlib display and the X server:
`MLockBuffer`, `XShmGetImage`, the full-frame copy, `MUnlockBuffer`. -/
inductive MCall
  | lockBuffer
  | shmGetImage
  | copyFrame
  | unlockBuffer

/-- C `render_root(dpy, mdpy, buf, ximg)`.  `lockOk`/`unlockOk` are the
outcomes of `MLockBuffer`/`MUnlockBuffer` (modelled from the spec: the
destination subsystem's lock/unlock contract, not under src/); `fetched` is
the outcome of `XShmGetImage` — `some d` deposits fresh screen contents `d`
in the shared surface, `none` is a failed fetch, which the C code only
logs: the copy still runs over the stale surface contents, and the fetch
failure does not influence the return value. -/
def render_root (lockOk : Bool) (fetched : Option Mem) (unlockOk : Bool)
    (buf : MBuffer) (ximg : XImage) : Int × MBuffer × List MCall :=
  if !lockOk then (-1, buf, [MCall.lockBuffer])
  else
    let ximg2 : XImage := match fetched with
      | some d => { ximg with data := d }
      | none => ximg
    let buf2 : MBuffer := { buf with bits := copy_ximg_to_buffer_mlocked buf ximg2 }
    if !unlockOk then
      (-1, buf2,
       [MCall.lockBuffer, MCall.shmGetImage, MCall.copyFrame, MCall.unlockBuffer])
    else
      (0, buf2,
       [MCall.lockBuffer, MCall.shmGetImage, MCall.copyFrame, MCall.unlockBuffer])

/-- Outcomes of the system and X calls made during `xshm_init`:
`XShmCreateImage`, `shmget`, `shmat`, `XShmAttach`. -/
structure ShmEnv where
  createImageOk : Bool
  shmgetOk : Bool
  shmatOk : Bool
  xshmAttachOk : Bool

/-- Host-level shared-memory resource state: whether the SysV segment is
still allocated (created by `shmget`, destroyed only by a successful
`shmctl(IPC_RMID)`), and whether a mapping is attached (`shmat`/`shmdt`). -/
structure ShmState where
  segAllocated : Bool
  attached : Bool

/-- C `cleanup_shm(shmaddr, shmid)`: `shmdt(shmaddr)`, then
`shmctl(shmid, IPC_RMID, 0)`.  `addrValid` says whether `shmaddr` is a
valid attached mapping; when it is not (as on the failed-`shmat` path,
where the address is the `shmat` error value), `shmdt` fails and the
function returns -1 early — `shmctl(IPC_RMID)` is never reached and the
segment stays allocated. -/
def cleanup_shm (st : ShmState) (addrValid : Bool) : Int × ShmState :=
  if addrValid then (0, ⟨false, false⟩)
  else (-1, st)

/-- The image `XShmCreateImage` builds for the current display geometry
(32 bits per pixel at the default depth, rows packed). -/
def xshm_init_img (w h : Nat) : XImage :=
  ⟨w, h, 32, w * 4, fun _ => 0⟩

/-- C `xshm_init(dpy, shminfo, screen)` for a display of size `w` by `h`:
`XShmCreateImage`, then `shmget`, then `shmat` (checked against the
negative error return), then `XShmAttach`.  Returns the created image
(`none` on failure) and the resulting host shared-memory state.  On the
failed-`shmat` path, `cleanup_shm` is called with the invalid address; on
the failed-`XShmAttach` path it is called with the valid attached one. -/
def xshm_init (env : ShmEnv) (w h : Nat) : Option XImage × ShmState :=
  if !env.createImageOk then (none, ⟨false, false⟩)
  else if !env.shmgetOk then (none, ⟨false, false⟩)
  else if !env.shmatOk then (none, (cleanup_shm ⟨true, false⟩ false).2)
  else if !env.xshmAttachOk then (none, (cleanup_shm ⟨true, true⟩ true).2)
  else (some (xshm_init_img w h), ⟨true, true⟩)

/-- Modelled from the spec: `MResizeBuffer` (the destination display
subsystem's buffer-resize contract; its implementation is not under src/)
resizes the lockable pixel buffer in place to the given width and height. -/
def MResizeBuffer (root : MBuffer) (w h : Nat) : MBuffer :=
  { root with width := w, height := h }

/-- C `resize_shm(dpy, ximg, shminfo)` against live display size `w` by
`h`: if the image dimensions are stale, destroy and recreate the shared
image (`xshm_init`), returning -1 when recreation fails.  The C function
receives the `ximg` pointer by value, so the recreated image is assigned
only to its local copy — the caller's image is unchanged no matter what
this returns. -/
def resize_shm (w h : Nat) (ximg : XImage) (env : ShmEnv) : Int :=
  if ximg.width = w ∧ ximg.height = h then 0
  else
    match (xshm_init env w h).1 with
    | none => -1
    | some _ => 0

/-- C `resize_mbuffer(dpy, mdpy, root)` against live display size `w` by
`h`: resize the destination buffer in place when its dimensions are stale;
`mresizeOk` is the outcome of `MResizeBuffer`. -/
def resize_mbuffer (w h : Nat) (root : MBuffer) (mresizeOk : Bool) : Int × MBuffer :=
  if root.width = w ∧ root.height = h then (0, root)
  else if mresizeOk then (0, MResizeBuffer root w h) else (-1, root)

/-- The resources of the main event loop: the shared image main holds and
passes to `render_root`, and the destination root buffer. -/
structure LoopState where
  ximg : XImage
  root : MBuffer

/-- The reconfiguration step of the main loop after a geometry change to
`w` by `h` (the buffer-size reconciliation after `sync_displays`):
`resize_shm` then `resize_mbuffer`; `none` means the loop breaks (fatal).
Main's `ximg` is passed to `resize_shm` by value, so the state keeps the
old image on every path. -/
def reconfigure (st : LoopState) (w h : Nat) (env : ShmEnv)
    (mresizeOk : Bool) : Option LoopState :=
  if resize_shm w h st.ximg env < 0 then none
  else
    match resize_mbuffer w h st.root mresizeOk with
    | (r, root2) => if r < 0 then none else some ⟨st.ximg, root2⟩

/-- Events delivered to the main loop: a damage notification, a screen
change (with the outcomes of the subsequent `resize_shm` and
`resize_mbuffer`), or any other event (forwarded to the cursor
collaborator). -/
inductive LoopEvent
  | damage
  | screenChange (resizeShmOk : Bool) (resizeMbufOk : Bool)
  | other

/-- The `do { XNextEvent; ... } while (1)` loop of `main`, tracking the
exit code: `none` means the loop is still blocked waiting for the next
event (it never exits on its own); a screen-change whose `resize_shm` or
`resize_mbuffer` fails breaks out of the loop, after which `main` returns
`err` — which is still 0 at that point. -/
def runLoop : List LoopEvent → Option Int
  | [] => none
  | LoopEvent.damage :: rest => runLoop rest
  | LoopEvent.screenChange shmOk bufOk :: rest =>
      if !shmOk then some 0
      else if !bufOk then some 0
      else runLoop rest
  | LoopEvent.other :: rest => runLoop rest

/-- Outcomes of the initialization calls `main` makes before entering the
event loop, in program order, and the events the loop then receives. -/
structure MainEnv where
  xInitThreadsOk : Bool
  xOpenDisplayOk : Bool
  shmExtOk : Bool
  damageExtOk : Bool
  randrExtOk : Bool
  mOpenDisplayOk : Bool
  mCreateBufferOk : Bool
  mcursorInitOk : Bool
  xshmInitOk : Bool
  events : List LoopEvent

/-- C `main()` as its exit code: each initialization failure returns -1;
once the loop is entered, the exit code is whatever `runLoop` produces
(`none` = the process never exits). -/
def main (env : MainEnv) : Option Int :=
  if !env.xInitThreadsOk then some (-1)
  else if !env.xOpenDisplayOk then some (-1)
  else if !env.shmExtOk then some (-1)
  else if !env.damageExtOk then some (-1)
  else if !env.randrExtOk then some (-1)
  else if !env.mOpenDisplayOk then some (-1)
  else if !env.mCreateBufferOk then some (-1)
  else if !env.mcursorInitOk then some (-1)
  else if !env.xshmInitOk then some (-1)
  else runLoop env.events

/-- Outcomes with every initialization call succeeding. -/
def mainEnvOk (events : List LoopEvent) : MainEnv :=
  ⟨true, true, true, true, true, true, true, true, true, events⟩

/-- Loop state before a geometry change: 100x50 shared image and buffer. -/
def stClean : LoopState := ⟨xshm_init_img 100 50, ⟨100, 50, 100, fun _ => 0⟩⟩

/-- Shm environment in which every call succeeds. -/
def shmEnvOk : ShmEnv := ⟨true, true, true, true⟩

theorem lt_shift_succ {y k z : Nat} (h : z < y + 1 + k) : z < y + (k + 1) :=
  Nat.lt_of_lt_of_le h (Nat.le_of_eq (Nat.add_right_comm y 1 k))

theorem lt_shift_succ_rev {y k z : Nat} (h : z < y + (k + 1)) : z < y + 1 + k :=
  Nat.lt_of_lt_of_le h (Nat.le_of_eq (Nat.add_right_comm y k 1))

theorem copyRowsAux_untouched (data : Mem) (L bpl n : Nat) (y k : Nat) (bits : Mem)
    (a : Nat) (h : ∀ z, y ≤ z → z < y + k → ¬(z * L ≤ a ∧ a < z * L + n)) :
    copyRowsAux data L bpl n y k bits a = bits a := by
  induction k generalizing y bits with
  | zero => rfl
  | succ k ih =>
    show copyRowsAux data L bpl n (y + 1) k (memcpy bits data (y * L) (y * bpl) n) a = bits a
    rw [ih (y + 1) _ (fun z hz1 hz2 => h z (Nat.le_of_succ_le hz1) (lt_shift_succ hz2))]
    have hy : ¬(y * L ≤ a ∧ a < y * L + n) :=
      h y (Nat.le_refl y) (Nat.lt_add_of_pos_right (Nat.succ_pos k))
    simp only [memcpy, if_neg hy]

theorem copyRowsAux_write (data : Mem) (L bpl n : Nat) (y k : Nat) (bits : Mem)
    (z a : Nat) (hz1 : y ≤ z) (hz2 : z < y + k)
    (ha : z * L ≤ a ∧ a < z * L + n)
    (hlast : ∀ w, z < w → w < y + k → ¬(w * L ≤ a ∧ a < w * L + n)) :
    copyRowsAux data L bpl n y k bits a = data (z * bpl + (a - z * L)) := by
  induction k generalizing y bits with
  | zero => exact absurd hz2 (Nat.not_lt.mpr hz1)
  | succ k ih =>
    show copyRowsAux data L bpl n (y + 1) k (memcpy bits data (y * L) (y * bpl) n) a
        = data (z * bpl + (a - z * L))
    rcases Nat.eq_or_lt_of_le hz1 with heq | hlt
    · subst heq
      rw [copyRowsAux_untouched data L bpl n (y + 1) k _ a
            (fun w hw1 hw2 => hlast w hw1 (lt_shift_succ hw2))]
      simp only [memcpy, if_pos ha]
    · exact ih (y + 1) _ hlt (lt_shift_succ_rev hz2)
        (fun w hw1 hw2 => hlast w hw1 (lt_shift_succ hw2))

/-- When each row's payload of `n` bytes fits in the per-row capacity `L`,
the payload regions of two distinct rows are disjoint: byte `y * L + j` of
row `y` (with `j < L`) is not in the payload region of row `z ≠ y`. -/
theorem rowDisjoint (L n y z j : Nat) (hnL : n ≤ L) (hj : j < L) (hne : z ≠ y) :
    ¬(z * L ≤ y * L + j ∧ y * L + j < z * L + n) := by
  intro ⟨h1, h2⟩
  rcases Nat.lt_or_ge z y with hlt | hge
  · have hmul : (z + 1) * L ≤ y * L := Nat.mul_le_mul_right L hlt
    have a1 : y * L + j < z * L + L :=
      Nat.lt_of_lt_of_le h2 (Nat.add_le_add_left hnL (z * L))
    have a2 : z * L + L ≤ y * L := Nat.succ_mul z L ▸ hmul
    exact absurd (Nat.lt_of_lt_of_le a1 a2)
      (Nat.not_lt.mpr (Nat.le_add_right (y * L) j))
  · have hzy : y < z := Nat.lt_of_le_of_ne hge (Ne.symm hne)
    have hmul : (y + 1) * L ≤ z * L := Nat.mul_le_mul_right L hzy
    have b1 : y * L + L ≤ y * L + j :=
      Nat.le_trans (Nat.succ_mul y L ▸ hmul) h1
    exact absurd hj (Nat.not_lt.mpr (Nat.le_of_add_le_add_left b1))

/-- C1 (amended).  For every frame copy over any row range, provided the
destination's per-row byte capacity `stride * 4` is at least the row payload
`width * (bits_per_pixel / 8)`, the destination bytes for each row `y` in the
range equal exactly `width * bytesPerPixel` contiguous bytes taken from source
row `y` — the source offset computed with the source's own per-row stride
`bytes_per_line`, the destination offset with the destination's own stride —
and no trailing per-row padding byte of the destination row is written. -/
theorem copy_rows_stride_exact (buf : MBuffer) (ximg : XImage)
    (row_start row_end y : Nat)
    (hcap : ximg.width * (ximg.bits_per_pixel / 8) ≤ buf.stride * 4)
    (hy1 : row_start ≤ y) (hy2 : y < row_end) :
    (∀ j, j < ximg.width * (ximg.bits_per_pixel / 8) →
      copy_ximg_rows_to_buffer_mlocked buf ximg row_start row_end
          (y * (buf.stride * 4) + j)
        = ximg.data (y * ximg.bytes_per_line + j)) ∧
    (∀ j, ximg.width * (ximg.bits_per_pixel / 8) ≤ j → j < buf.stride * 4 →
      copy_ximg_rows_to_buffer_mlocked buf ximg row_start row_end
          (y * (buf.stride * 4) + j)
        = buf.bits (y * (buf.stride * 4) + j)) := by
  constructor
  · intro j hj
    have hjL : j < buf.stride * 4 := lt_of_lt_of_le hj hcap
    have hrr : row_start + (row_end - row_start) = row_end :=
      Nat.add_sub_cancel' (Nat.le_trans hy1 (Nat.le_of_lt hy2))
    have h := copyRowsAux_write ximg.data (buf.stride * 4) ximg.bytes_per_line
      (ximg.width * (ximg.bits_per_pixel / 8)) row_start (row_end - row_start)
      buf.bits y (y * (buf.stride * 4) + j) hy1
      (Nat.lt_of_lt_of_le hy2 (Nat.le_of_eq hrr.symm))
      ⟨Nat.le_add_right _ _, Nat.add_lt_add_left hj (y * (buf.stride * 4))⟩
      (fun w hw1 hw2 =>
        rowDisjoint (buf.stride * 4) (ximg.width * (ximg.bits_per_pixel / 8))
          y w j hcap hjL (Ne.symm (Nat.ne_of_lt hw1)))
    simp only [copy_ximg_rows_to_buffer_mlocked]
    rw [h, Nat.add_sub_cancel_left]
  · intro j hj1 hj2
    simp only [copy_ximg_rows_to_buffer_mlocked]
    apply copyRowsAux_untouched
    intro z hz1 hz2
    rcases eq_or_ne z y with heq | hne
    · subst heq
      intro ⟨h1, h2⟩
      exact absurd (Nat.lt_of_add_lt_add_left h2) (Nat.not_lt.mpr hj1)
    · exact rowDisjoint (buf.stride * 4) (ximg.width * (ximg.bits_per_pixel / 8))
        y z j hcap hj2 hne

/-- Witness for C1 at a concrete copy: payload byte 2 of row 1 comes from the
source row 1 at its own stride, and padding byte 5 of destination row 1 is
left untouched. -/
theorem copy_rows_stride_exact_witness :
    (∀ j, j < mxW.width * (mxW.bits_per_pixel / 8) →
      copy_ximg_rows_to_buffer_mlocked mbW mxW 0 3 (1 * (mbW.stride * 4) + j)
        = mxW.data (1 * mxW.bytes_per_line + j)) ∧
    (∀ j, mxW.width * (mxW.bits_per_pixel / 8) ≤ j → j < mbW.stride * 4 →
      copy_ximg_rows_to_buffer_mlocked mbW mxW 0 3 (1 * (mbW.stride * 4) + j)
        = mbW.bits (1 * (mbW.stride * 4) + j)) :=
  copy_rows_stride_exact mbW mxW 0 3 1 (by decide) (by decide) (by decide)

/-- Counterexample to C1 as stated: with a destination stride of 1 pixel
(4 bytes per row) and a source row payload of 8 bytes, the copied rows
overlap, and byte 4 of destination row 0 ends up holding source byte 8
(from row 1) instead of source byte 4 of row 0 — the claim does not hold
for all pairs of strides. -/
theorem copy_rows_stride_counterexample :
    copy_ximg_rows_to_buffer_mlocked mbC mxC 0 2 (0 * (mbC.stride * 4) + 4)
      ≠ mxC.data (0 * mxC.bytes_per_line + 4) := by
  decide

theorem countA_append (x : XAction) (l₁ l₂ : List XAction) :
    countA x (l₁ ++ l₂) = countA x l₁ + countA x l₂ := by
  induction l₁ with
  | nil => simp [countA]
  | cons a r ih => simp [countA, ih, Nat.add_assoc]

theorem countA_replicate (x a : XAction) (n : Nat) (h : a ≠ x) :
    countA x (List.replicate n a) = 0 := by
  induction n with
  | zero => rfl
  | succ n ih => simp [List.replicate_succ, countA, h, ih]

theorem countA_ungrab_drain (p : Bool) :
    countA XAction.ungrabServer (drainTrace p) = 0 := by
  cases p <;> rfl

theorem drain_no_geom (p : Bool) :
    ∀ a ∈ drainTrace p, isGeomAction a = false := by
  cases p <;> decide

theorem mem_drainTrace (a : XAction) (p : Bool) :
    a ∈ drainTrace p ↔
      a = XAction.checkPendingEvent ∨
      (p = true ∧ a = XAction.updateConfiguration) := by
  cases p <;> simp [drainTrace]

theorem countA_ungrab_replicate (k : Nat) :
    countA XAction.ungrabServer (List.replicate k XAction.confirmPoll) = 0 :=
  countA_replicate _ _ _ (by decide)

theorem sync_displays_eq_nofetch (p : Bool) (xw xh : Nat)
    (modes : List XRRModeInfo) (setOk : Bool) (evs : List SCEvent) :
    sync_displays ⟨none, p, xw, xh, modes, setOk, evs⟩
      = (some (-1), [], (xw, xh)) := rfl

theorem sync_displays_eq_invalid (d : MDisplayInfo) (p : Bool) (xw xh : Nat)
    (modes : List XRRModeInfo) (setOk : Bool) (evs : List SCEvent)
    (hv : ¬(0 < d.width ∧ 0 < d.height)) :
    sync_displays ⟨some d, p, xw, xh, modes, setOk, evs⟩
      = (some (-1), [], (xw, xh)) := by
  simp only [sync_displays]
  rw [if_neg hv]

theorem sync_displays_eq_grab (d : MDisplayInfo) (p : Bool) (xw xh : Nat)
    (modes : List XRRModeInfo) (setOk : Bool) (evs : List SCEvent)
    (hv : 0 < d.width ∧ 0 < d.height) :
    sync_displays ⟨some d, p, xw, xh, modes, setOk, evs⟩
      = ((sync_inner d xw xh modes setOk evs).1,
         drainTrace p ++ XAction.grabServer :: XAction.readGeometry ::
           (sync_inner d xw xh modes setOk evs).2.1,
         (sync_inner d xw xh modes setOk evs).2.2) := by
  simp only [sync_displays]
  rw [if_pos hv]

theorem sync_inner_already (d : MDisplayInfo) (xw xh : Nat)
    (modes : List XRRModeInfo) (setOk : Bool) (evs : List SCEvent)
    (heq : xw = d.width ∧ xh = d.height) :
    sync_inner d xw xh modes setOk evs
      = (some 0, [XAction.ungrabServer], (xw, xh)) := by
  simp only [sync_inner]
  rw [if_pos heq]

theorem sync_inner_nomatch (d : MDisplayInfo) (xw xh : Nat)
    (modes : List XRRModeInfo) (setOk : Bool) (evs : List SCEvent)
    (hne : ¬(xw = d.width ∧ xh = d.height))
    (hfind : x_find_matching_mode modes d.width d.height = none) :
    sync_inner d xw xh modes setOk evs
      = (some (-1),
         [XAction.getScreenResources, XAction.freeScreenResources,
          XAction.ungrabServer],
         (xw, xh)) := by
  simp only [sync_inner]
  rw [if_neg hne, hfind]

theorem sync_inner_setfail (d : MDisplayInfo) (xw xh : Nat)
    (modes : List XRRModeInfo) (evs : List SCEvent) (m : XRRModeInfo)
    (hne : ¬(xw = d.width ∧ xh = d.height))
    (hfind : x_find_matching_mode modes d.width d.height = some m) :
    sync_inner d xw xh modes false evs
      = (some (-1),
         [XAction.getScreenResources, XAction.readGeometry,
          XAction.setCrtcConfig, XAction.freeScreenResources,
          XAction.ungrabServer],
         (xw, xh)) := by
  simp only [sync_inner]
  rw [if_neg hne, hfind]
  rfl

theorem sync_inner_blocked (d : MDisplayInfo) (xw xh : Nat)
    (modes : List XRRModeInfo) (evs : List SCEvent) (m : XRRModeInfo)
    (hne : ¬(xw = d.width ∧ xh = d.height))
    (hfind : x_find_matching_mode modes d.width d.height = some m)
    (hres : (x_sync_mode m evs).1 = SyncModeResult.blocked) :
    sync_inner d xw xh modes true evs
      = (none,
         XAction.getScreenResources :: XAction.readGeometry ::
           XAction.setCrtcConfig :: XAction.setScreenSize ::
           List.replicate (x_sync_mode m evs).2 XAction.confirmPoll,
         (m.width, m.height)) := by
  simp only [sync_inner]
  rw [if_neg hne, hfind]
  dsimp only
  rw [hres]
  rfl

theorem sync_inner_synced (d : MDisplayInfo) (xw xh : Nat)
    (modes : List XRRModeInfo) (evs : List SCEvent) (m : XRRModeInfo)
    (hne : ¬(xw = d.width ∧ xh = d.height))
    (hfind : x_find_matching_mode modes d.width d.height = some m)
    (hres : (x_sync_mode m evs).1 = SyncModeResult.synced) :
    sync_inner d xw xh modes true evs
      = (some 0,
         XAction.getScreenResources :: XAction.readGeometry ::
           XAction.setCrtcConfig :: XAction.setScreenSize ::
           (List.replicate (x_sync_mode m evs).2 XAction.confirmPoll
             ++ [XAction.freeScreenResources, XAction.ungrabServer]),
         (m.width, m.height)) := by
  simp only [sync_inner]
  rw [if_neg hne, hfind]
  dsimp only
  rw [hres]
  rfl

theorem sync_inner_confirmfail (d : MDisplayInfo) (xw xh : Nat)
    (modes : List XRRModeInfo) (evs : List SCEvent) (m : XRRModeInfo)
    (hne : ¬(xw = d.width ∧ xh = d.height))
    (hfind : x_find_matching_mode modes d.width d.height = some m)
    (hres : (x_sync_mode m evs).1 = SyncModeResult.failed) :
    sync_inner d xw xh modes true evs
      = (some (-1),
         XAction.getScreenResources :: XAction.readGeometry ::
           XAction.setCrtcConfig :: XAction.setScreenSize ::
           (List.replicate (x_sync_mode m evs).2 XAction.confirmPoll
             ++ [XAction.freeScreenResources, XAction.ungrabServer]),
         (m.width, m.height)) := by
  simp only [sync_inner]
  rw [if_neg hne, hfind]
  dsimp only
  rw [hres]
  rfl

theorem sync_inner_count (d : MDisplayInfo) (xw xh : Nat)
    (modes : List XRRModeInfo) (setOk : Bool) (evs : List SCEvent)
    (hterm : (sync_inner d xw xh modes setOk evs).1 ≠ none) :
    countA XAction.ungrabServer (sync_inner d xw xh modes setOk evs).2.1 = 1 := by
  by_cases heq : xw = d.width ∧ xh = d.height
  · rw [sync_inner_already d xw xh modes setOk evs heq]; rfl
  · cases hfind : x_find_matching_mode modes d.width d.height with
    | none => rw [sync_inner_nomatch d xw xh modes setOk evs heq hfind]; rfl
    | some m =>
      cases setOk with
      | false => rw [sync_inner_setfail d xw xh modes evs m heq hfind]; rfl
      | true =>
        cases hres : (x_sync_mode m evs).1 with
        | blocked =>
            rw [sync_inner_blocked d xw xh modes evs m heq hfind hres] at hterm
            exact absurd rfl hterm
        | synced =>
            rw [sync_inner_synced d xw xh modes evs m heq hfind hres]
            simp [countA, countA_append, countA_ungrab_replicate]
        | failed =>
            rw [sync_inner_confirmfail d xw xh modes evs m heq hfind hres]
            simp [countA, countA_append, countA_ungrab_replicate]

theorem sync_inner_polls (d : MDisplayInfo) (xw xh : Nat)
    (modes : List XRRModeInfo) (setOk : Bool) (evs : List SCEvent)
    (hpoll : XAction.confirmPoll ∈ (sync_inner d xw xh modes setOk evs).2.1) :
    ∃ l₁ n l₂,
      (sync_inner d xw xh modes setOk evs).2.1
        = l₁ ++ List.replicate n XAction.confirmPoll ++ l₂ ∧
      0 < n ∧ XAction.ungrabServer ∉ l₁ ∧
      XAction.confirmPoll ∉ l₁ ∧ XAction.confirmPoll ∉ l₂ := by
  by_cases heq : xw = d.width ∧ xh = d.height
  · rw [sync_inner_already d xw xh modes setOk evs heq] at hpoll
    simp at hpoll
  · cases hfind : x_find_matching_mode modes d.width d.height with
    | none =>
        rw [sync_inner_nomatch d xw xh modes setOk evs heq hfind] at hpoll
        simp at hpoll
    | some m =>
      cases setOk with
      | false =>
          rw [sync_inner_setfail d xw xh modes evs m heq hfind] at hpoll
          simp at hpoll
      | true =>
        cases hres : (x_sync_mode m evs).1 with
        | blocked =>
            rw [sync_inner_blocked d xw xh modes evs m heq hfind hres] at hpoll ⊢
            simp [List.mem_replicate] at hpoll
            refine ⟨[XAction.getScreenResources, XAction.readGeometry,
              XAction.setCrtcConfig, XAction.setScreenSize],
              (x_sync_mode m evs).2, [], ?_, Nat.pos_of_ne_zero hpoll,
              by decide, by decide, by decide⟩
            simp
        | synced =>
            rw [sync_inner_synced d xw xh modes evs m heq hfind hres] at hpoll ⊢
            simp [List.mem_replicate] at hpoll
            refine ⟨[XAction.getScreenResources, XAction.readGeometry,
              XAction.setCrtcConfig, XAction.setScreenSize],
              (x_sync_mode m evs).2,
              [XAction.freeScreenResources, XAction.ungrabServer],
              ?_, Nat.pos_of_ne_zero hpoll, by decide, by decide, by decide⟩
            simp
        | failed =>
            rw [sync_inner_confirmfail d xw xh modes evs m heq hfind hres] at hpoll ⊢
            simp [List.mem_replicate] at hpoll
            refine ⟨[XAction.getScreenResources, XAction.readGeometry,
              XAction.setCrtcConfig, XAction.setScreenSize],
              (x_sync_mode m evs).2,
              [XAction.freeScreenResources, XAction.ungrabServer],
              ?_, Nat.pos_of_ne_zero hpoll, by decide, by decide, by decide⟩
            simp

/-- C2.  In every negotiation attempt that reaches the grab-acquisition step
(and returns at all), the exclusive server grab is released exactly once,
and it was acquired before any geometry inspection or mutation: the trace
splits as actions-before-the-grab containing no geometry action, then the
grab, then the rest. -/
theorem sync_displays_grab_released_once (env : SyncEnv)
    (hgrab : XAction.grabServer ∈ (sync_displays env).2.1)
    (hterm : (sync_displays env).1 ≠ none) :
    countA XAction.ungrabServer (sync_displays env).2.1 = 1 ∧
    ∃ l₁ l₂, (sync_displays env).2.1 = l₁ ++ XAction.grabServer :: l₂ ∧
      ∀ a ∈ l₁, isGeomAction a = false := by
  obtain ⟨dinfo, p, xw, xh, modes, setOk, evs⟩ := env
  cases dinfo with
  | none =>
    rw [sync_displays_eq_nofetch] at hgrab
    simp at hgrab
  | some d =>
    by_cases hv : 0 < d.width ∧ 0 < d.height
    · rw [sync_displays_eq_grab d p xw xh modes setOk evs hv] at hterm ⊢
      refine ⟨?_, drainTrace p, _, rfl, drain_no_geom p⟩
      rw [countA_append, countA_ungrab_drain]
      simp [countA, sync_inner_count d xw xh modes setOk evs hterm]
    · rw [sync_displays_eq_invalid d p xw xh modes setOk evs hv] at hgrab
      simp at hgrab

/-- Witness for C2: the already-synced attempt `envSynced` reaches the grab,
returns, releases the grab exactly once, and grabbed before inspecting
geometry. -/
theorem sync_displays_grab_released_once_witness :
    XAction.grabServer ∈ (sync_displays envSynced).2.1 ∧
    ((sync_displays envSynced).1 ≠ none) ∧
    (countA XAction.ungrabServer (sync_displays envSynced).2.1 = 1 ∧
     ∃ l₁ l₂, (sync_displays envSynced).2.1 = l₁ ++ XAction.grabServer :: l₂ ∧
       ∀ a ∈ l₁, isGeomAction a = false) :=
  ⟨by decide, by decide,
   sync_displays_grab_released_once envSynced (by decide) (by decide)⟩

/-- Counterexample to C3 as stated: in the concrete attempt `envApplied`
that applies a mode, a confirmation poll occurs among the first 8 actions,
no grab release precedes it, and the (single) grab release of the attempt
happens only later — the polling executes while the grab is held, not after
its release. -/
theorem sync_wait_under_grab_counterexample :
    XAction.confirmPoll ∈ ((sync_displays envApplied).2.1).take 8 ∧
    XAction.ungrabServer ∉ ((sync_displays envApplied).2.1).take 8 ∧
    XAction.ungrabServer ∈ (sync_displays envApplied).2.1 := by
  decide

/-- C3 (amended).  In every negotiation attempt whose trace contains a
confirmation poll, all the polling forms one contiguous block that lies
after the grab acquisition and before any grab release: the trace splits
into a prefix containing the grab but no release and no poll, the block of
polls, and a remainder with no further poll. -/
theorem sync_confirm_polls_under_grab (env : SyncEnv)
    (hpoll : XAction.confirmPoll ∈ (sync_displays env).2.1) :
    ∃ l₁ n l₂,
      (sync_displays env).2.1 = l₁ ++ List.replicate n XAction.confirmPoll ++ l₂ ∧
      0 < n ∧ XAction.grabServer ∈ l₁ ∧ XAction.ungrabServer ∉ l₁ ∧
      XAction.confirmPoll ∉ l₁ ∧ XAction.confirmPoll ∉ l₂ := by
  obtain ⟨dinfo, p, xw, xh, modes, setOk, evs⟩ := env
  cases dinfo with
  | none =>
    rw [sync_displays_eq_nofetch] at hpoll
    simp at hpoll
  | some d =>
    by_cases hv : 0 < d.width ∧ 0 < d.height
    · rw [sync_displays_eq_grab d p xw xh modes setOk evs hv] at hpoll ⊢
      have hp : XAction.confirmPoll ∈ (sync_inner d xw xh modes setOk evs).2.1 := by
        rcases List.mem_append.mp hpoll with h | h
        · exact absurd h (by simp [mem_drainTrace])
        · simp only [List.mem_cons] at h
          rcases h with h | h | h
          · exact absurd h (by decide)
          · exact absurd h (by decide)
          · exact h
      obtain ⟨l₁, n, l₂, hsplit, hn, hu1, hq1, hq2⟩ :=
        sync_inner_polls d xw xh modes setOk evs hp
      refine ⟨drainTrace p ++ XAction.grabServer :: XAction.readGeometry :: l₁,
        n, l₂, ?_, hn, ?_, ?_, ?_, hq2⟩
      · rw [hsplit]
        simp [List.append_assoc]
      · simp [List.mem_append]
      · simp [List.mem_append, List.mem_cons, mem_drainTrace, hu1]
      · simp [List.mem_append, List.mem_cons, mem_drainTrace, hq1]
    · rw [sync_displays_eq_invalid d p xw xh modes setOk evs hv] at hpoll
      simp at hpoll

/-- Witness for C3 (amended) at the concrete mode-applying attempt
`envApplied`. -/
theorem sync_confirm_polls_under_grab_witness :
    XAction.confirmPoll ∈ (sync_displays envApplied).2.1 ∧
    (∃ l₁ n l₂,
      (sync_displays envApplied).2.1
        = l₁ ++ List.replicate n XAction.confirmPoll ++ l₂ ∧
      0 < n ∧ XAction.grabServer ∈ l₁ ∧ XAction.ungrabServer ∉ l₁ ∧
      XAction.confirmPoll ∉ l₁ ∧ XAction.confirmPoll ∉ l₂) :=
  ⟨by decide, sync_confirm_polls_under_grab envApplied (by decide)⟩

/-- C9.  For every requested geometry equal to the current source geometry
at the comparison under the grab, `sync_displays` returns 0 (`Synced`)
without issuing any mode apply, screen-size update, confirmation poll, or
even a screen-resources query, and the source geometry is unchanged. -/
theorem sync_displays_idempotent_noop (env : SyncEnv) (d : MDisplayInfo)
    (hd : env.dinfo = some d) (hvalid : 0 < d.width ∧ 0 < d.height)
    (heq : env.xwidth = d.width ∧ env.xheight = d.height) :
    (sync_displays env).1 = some 0 ∧
    XAction.setCrtcConfig ∉ (sync_displays env).2.1 ∧
    XAction.setScreenSize ∉ (sync_displays env).2.1 ∧
    XAction.confirmPoll ∉ (sync_displays env).2.1 ∧
    XAction.getScreenResources ∉ (sync_displays env).2.1 ∧
    (sync_displays env).2.2 = (env.xwidth, env.xheight) := by
  obtain ⟨dinfo, p, xw, xh, modes, setOk, evs⟩ := env
  cases hd
  dsimp only at heq ⊢
  rw [sync_displays_eq_grab d p xw xh modes setOk evs hvalid,
      sync_inner_already d xw xh modes setOk evs heq]
  refine ⟨rfl, ?_, ?_, ?_, ?_, rfl⟩ <;>
    simp [List.mem_append, mem_drainTrace]

/-- Witness for C9 at the concrete already-synced attempt `envSynced`. -/
theorem sync_displays_idempotent_noop_witness :
    (sync_displays envSynced).1 = some 0 ∧
    XAction.setCrtcConfig ∉ (sync_displays envSynced).2.1 ∧
    XAction.setScreenSize ∉ (sync_displays envSynced).2.1 ∧
    XAction.confirmPoll ∉ (sync_displays envSynced).2.1 ∧
    XAction.getScreenResources ∉ (sync_displays envSynced).2.1 ∧
    (sync_displays envSynced).2.2 = (envSynced.xwidth, envSynced.xheight) :=
  sync_displays_idempotent_noop envSynced ⟨800, 600⟩ rfl (by decide) (by decide)

/-- Counterexample to C8 as stated: the no-matching-mode attempt
`envNoMatch` returns the same value, -1, as the mode-set-failure attempt
`envSetFail` — the `UsingCurrentMode` outcome is not distinct from `Failed`
in the function's result. -/
theorem sync_no_match_not_distinct_counterexample :
    (sync_displays envNoMatch).1 = (sync_displays envSetFail).1 ∧
    (sync_displays envNoMatch).1 = some (-1) ∧
    x_find_matching_mode envNoMatch.modes 1234 567 = none ∧
    x_find_matching_mode envSetFail.modes 1280 720 = some ⟨1280, 720⟩ ∧
    envSetFail.setCrtcOk = false :=
  ⟨rfl, rfl, rfl, rfl, rfl⟩

/-- C8 (amended).  For every requested geometry absent from the advertised
mode list, `sync_displays` returns -1 (the shared fallback/failure code, not
a value distinct from the failure paths), the source geometry is unchanged,
and no mode apply, screen-size update, or confirmation poll is issued. -/
theorem sync_displays_no_match_uses_current (env : SyncEnv) (d : MDisplayInfo)
    (hd : env.dinfo = some d) (hvalid : 0 < d.width ∧ 0 < d.height)
    (hne : ¬(env.xwidth = d.width ∧ env.xheight = d.height))
    (hnm : x_find_matching_mode env.modes d.width d.height = none) :
    (sync_displays env).1 = some (-1) ∧
    XAction.setCrtcConfig ∉ (sync_displays env).2.1 ∧
    XAction.setScreenSize ∉ (sync_displays env).2.1 ∧
    XAction.confirmPoll ∉ (sync_displays env).2.1 ∧
    (sync_displays env).2.2 = (env.xwidth, env.xheight) := by
  obtain ⟨dinfo, p, xw, xh, modes, setOk, evs⟩ := env
  cases hd
  dsimp only at hne hnm ⊢
  rw [sync_displays_eq_grab d p xw xh modes setOk evs hvalid,
      sync_inner_nomatch d xw xh modes setOk evs hne hnm]
  refine ⟨rfl, ?_, ?_, ?_, rfl⟩ <;>
    simp [List.mem_append, mem_drainTrace]

/-- Witness for C8 (amended) at the concrete no-match attempt `envNoMatch`. -/
theorem sync_displays_no_match_uses_current_witness :
    (sync_displays envNoMatch).1 = some (-1) ∧
    XAction.setCrtcConfig ∉ (sync_displays envNoMatch).2.1 ∧
    XAction.setScreenSize ∉ (sync_displays envNoMatch).2.1 ∧
    XAction.confirmPoll ∉ (sync_displays envNoMatch).2.1 ∧
    (sync_displays envNoMatch).2.2 = (envNoMatch.xwidth, envNoMatch.xheight) :=
  sync_displays_no_match_uses_current envNoMatch ⟨1234, 567⟩ rfl
    (by decide) (by decide) rfl

/-- C5 evaluated at the failing inputs: when, after a fully successful
initialization, a geometry change arrives and the shared-memory rebuild
(`resize_shm`) fails — or the destination-buffer resize (`resize_mbuffer`)
fails — the loop breaks with `err` still 0 and the process exits with code
0, not a non-zero code.  (Initialization failures do exit non-zero, as in
the last conjunct.) -/
theorem main_exit_zero_on_resize_failure :
    main (mainEnvOk [LoopEvent.damage, LoopEvent.screenChange false true]) = some 0 ∧
    main (mainEnvOk [LoopEvent.screenChange true false]) = some 0 ∧
    (0 : Int) ≠ -1 ∧
    main ⟨true, true, true, true, true, true, true, true, false, []⟩ = some (-1) := by
  decide

/-- C6 evaluated at the failing input: after a geometry change from 100x50
to 200x80 in which `sync_displays`, the shared-memory rebuild, and the
buffer resize all succeed, the reconfiguration step reports success, the
destination buffer is 200x80, but the shared image that `main` keeps using
for subsequent captures still has the stale 100x50 dimensions — because
`resize_shm` received the image pointer by value and the recreated image
was lost. -/
theorem reconfigure_keeps_stale_ximg :
    (reconfigure stClean 200 80 shmEnvOk true).map
        (fun s => (s.ximg.width, s.ximg.height, s.root.width, s.root.height))
      = some (100, 50, 200, 80) ∧
    ((100, 50) : Nat × Nat) ≠ (200, 80) := by
  constructor
  · rfl
  · decide

/-- C7 evaluated at the failing input: when `shmat` fails after a
successful `shmget`, `xshm_init` returns failure but the freshly created
shared-memory segment is still allocated — `cleanup_shm` was called with
the invalid address, its `shmdt` failed, and it returned before
`shmctl(IPC_RMID)`.  (On the `XShmAttach` registration-failure path, by
contrast, both the mapping and the segment are released, and on the
`shmget`-failure path nothing was acquired.) -/
theorem xshm_init_attach_failure_leaks :
    (xshm_init ⟨true, true, false, true⟩ 1920 1080).1 = none ∧
    (xshm_init ⟨true, true, false, true⟩ 1920 1080).2.segAllocated = true ∧
    (xshm_init ⟨true, true, true, false⟩ 1920 1080).1 = none ∧
    (xshm_init ⟨true, true, true, false⟩ 1920 1080).2 = ⟨false, false⟩ ∧
    (xshm_init ⟨true, false, true, true⟩ 1920 1080).1 = none ∧
    (xshm_init ⟨true, false, true, true⟩ 1920 1080).2 = ⟨false, false⟩ :=
  ⟨rfl, rfl, rfl, rfl, rfl, rfl⟩

/-- C10 (amended).  For every invocation of `render_root` in which the
destination-buffer lock succeeds but the shared-memory image fetch fails,
the full-frame copy into the destination buffer is still performed from
the previous, stale contents of the shared surface, the unlock is issued,
and — when the unlock succeeds — the operation reports success (0).  When
the unlock fails it reports -1 (see the counterexample). -/
theorem render_root_fetch_failure_still_succeeds (buf : MBuffer) (ximg : XImage) :
    (render_root true none true buf ximg).1 = 0 ∧
    (render_root true none true buf ximg).2.1.bits
      = copy_ximg_to_buffer_mlocked buf ximg ∧
    (render_root true none true buf ximg).2.2
      = [MCall.lockBuffer, MCall.shmGetImage, MCall.copyFrame, MCall.unlockBuffer] :=
  ⟨rfl, rfl, rfl⟩

/-- Counterexample to C10 as stated: with the lock succeeding and the fetch
failing, but the subsequent unlock also failing, `render_root` reports -1,
not success — so the claim does not hold for every such invocation. -/
theorem render_root_unlock_failure_counterexample :
    (render_root true none false mbW mxW).1 = -1 ∧ ((-1 : Int) ≠ 0) :=
  ⟨rfl, by decide⟩

end Mflinger
